import Mathlib

/-!
# Biblioteka: the book collection held by `App` (src/src/App.jsx)

A shallow embedding of the state kept by the `App` component and of the
handlers that change it: `fetchUserBooks`, `searchBooks`, `handleAddBook`,
`handleStatusChange` and the session subscription of the mount effect.

Conventions of the embedding.

* A JavaScript object used as a map is an association list; reading a key that
  is absent gives `none` (JavaScript `undefined`).
* The outside world (record store, catalog, clock) is a parameter: each handler
  receives the answer the collaborator gives to the one request it issues, and
  reports the requests it issued in its result.
* Variables a handler reads from its closure (`session`, `searchQuery`) are
  explicit arguments; the React state its setters act on is the `AppState`
  argument.
* A handler returns `Except JSError Result`: `.error` is an exception that
  leaves the handler or a state updater uncaught, `.ok` carries the new state
  together with the alerts shown and the labels written by `console.error`.
-/

namespace Biblioteka

/-! ## Data model -/

/-- Label of `BOOK_STATUS.TO_READ` (App.jsx line 6). -/
def BOOK_STATUS.TO_READ : String := "DO PRZECZYTANIA"
/-- Label of `BOOK_STATUS.READING` (App.jsx line 7). -/
def BOOK_STATUS.READING : String := "W TRAKCIE"
/-- Label of `BOOK_STATUS.READ` (App.jsx line 8). -/
def BOOK_STATUS.READ : String := "PRZECZYTANE"
/-- Label of `BOOK_STATUS.ABANDONED` (App.jsx line 9). -/
def BOOK_STATUS.ABANDONED : String := "PORZUCONE"

/-- The list `Object.values(BOOK_STATUS)`, in declaration order. -/
def BOOK_STATUS.values : List String :=
  [BOOK_STATUS.TO_READ, BOOK_STATUS.READING, BOOK_STATUS.READ, BOOK_STATUS.ABANDONED]

/-- A row of the table `books`, as the store returns it. -/
structure BookRecord where
  id : String
  user_id : String
  title : String
  authors : String
  cover : String
  isbn : String
  description : String
  status : String
  added_at : String
  status_changed_at : Option String
  deriving DecidableEq, Repr

/-- The user of a session. -/
structure User where
  id : String
  deriving DecidableEq, Repr

/-- A session as delivered by the session provider. -/
structure Session where
  user : User
  deriving DecidableEq, Repr

/-- A JavaScript error value: a thrown exception or the `error` of a store answer. -/
structure JSError where
  name : String
  message : String
  deriving DecidableEq, Repr

/-- The `TypeError` raised by reading a property of `null` or `undefined`. -/
def JSError.typeError (what : String) : JSError :=
  { name := "TypeError", message := "Cannot read properties of " ++ what }

/-- An element of the search results (the object built in `searchBooks`). The
fields `id` and `title` are copied from the catalog item without a fallback, so
they can be `undefined` (`none`). -/
structure SearchItem where
  id : Option String
  title : Option String
  authors : String
  cover : String
  isbn : String
  description : String
  deriving DecidableEq, Repr

/-- The object `books`: status label to bucket, as a JavaScript object. -/
abbrev Books := List (String × List BookRecord)

/-- Property read `o[k]`; `none` is `undefined`. -/
def Books.get : Books → String → Option (List BookRecord)
  | [], _ => none
  | (k', v) :: rest, k => if k' = k then some v else Books.get rest k

/-- Property write with a computed key, as in an object literal after a spread:
an existing key keeps its position, a new key is added at the end. -/
def Books.set : Books → String → List BookRecord → Books
  | [], k, v => [(k, v)]
  | (k', v') :: rest, k, v =>
    if k' = k then (k', v) :: rest else (k', v') :: Books.set rest k v

/-- The keys of the object, in order (`Object.keys`). -/
def Books.keys (o : Books) : List String := o.map Prod.fst

/-- The object literal with four empty buckets (App.jsx lines 14-19 and 55-60). -/
def emptyBooks : Books :=
  [(BOOK_STATUS.TO_READ, []), (BOOK_STATUS.READING, []),
   (BOOK_STATUS.READ, []), (BOOK_STATUS.ABANDONED, [])]

/-- The React state of `App` (App.jsx lines 13-22). -/
structure AppState where
  session : Option Session
  books : Books
  searchQuery : String
  searchResults : List SearchItem
  isLoading : Bool
  deriving DecidableEq, Repr

/-- The state of the first render: the arguments of the `useState` calls. -/
def App.initialState : AppState :=
  { session := none, books := emptyBooks, searchQuery := "",
    searchResults := [], isLoading := false }

/-- A JavaScript object literal whose values are strings or `undefined`, in key
order. -/
abbrev JSObject := List (String × Option String)

/-- Property read on an object literal; `none` is `undefined`, for an absent key
as for a key whose value is `undefined`. -/
def JSObject.get : JSObject → String → Option String
  | [], _ => none
  | (k', v) :: rest, k => if k' = k then v else JSObject.get rest k

/-- A request sent to a collaborator. -/
inductive Request where
  /-- Request `from(table).select("*").eq("user_id", user_id)`. -/
  | select (table : String) (user_id : String)
  /-- Request `from(table).insert(rows).select()`. -/
  | insert (table : String) (rows : List JSObject)
  /-- Request `from(table).update(fields).eq("id", id).eq("user_id", user_id)`. -/
  | update (table : String) (fields : List (String × String)) (id : String) (user_id : String)
  /-- Request `fetch` of the catalog volumes for `q`, with `maxResults`. -/
  | catalog (q : String) (maxResults : Nat)
  deriving DecidableEq, Repr

/-- What a handler leaves behind when it finishes without an uncaught error. -/
structure Result where
  state : AppState
  requests : List Request
  alerts : List String
  console : List String
  deriving DecidableEq, Repr

deriving instance DecidableEq for Except

/-! ## Load: `fetchUserBooks` (App.jsx lines 46-70) -/

/-- One step of `data.forEach`: `organizedBooks[book.status].push(book)`. Reading
`push` of a bucket that does not exist throws. -/
def pushBook (organizedBooks : Books) (book : BookRecord) : Except JSError Books :=
  match organizedBooks.get book.status with
  | none => .error (JSError.typeError "undefined (reading push)")
  | some bucket => .ok (organizedBooks.set book.status (bucket ++ [book]))

/-- The loop `data.forEach((book) => organizedBooks[book.status].push(book))`. -/
def forEachPush : Books → List BookRecord → Except JSError Books
  | organizedBooks, [] => .ok organizedBooks
  | organizedBooks, book :: rest =>
    match pushBook organizedBooks book with
    | .error e => .error e
    | .ok next => forEachPush next rest

/-- The handler `fetchUserBooks`. `session` is the variable of the closure the
handler was created in; `answer` is the store answer to the select, `.error`
standing for a non-null `error` field and `.ok data` for the rows. Every
exception is raised inside the `try` block and ends in the `catch`, which only
logs. -/
def fetchUserBooks (session : Option Session)
    (answer : Except JSError (List BookRecord)) (st : AppState) : Except JSError Result :=
  match session with
  | none =>
    -- the argument `session.user.id` of `.eq` throws before the query is sent
    .ok { state := st, requests := [], alerts := [],
          console := ["Błąd podczas pobierania książek:"] }
  | some s =>
    let requests := [Request.select "books" s.user.id]
    match answer with
    | .error _ =>
      .ok { state := st, requests := requests, alerts := [],
            console := ["Błąd podczas pobierania książek:"] }
    | .ok data =>
      match forEachPush emptyBooks data with
      | .error _ =>
        .ok { state := st, requests := requests, alerts := [],
              console := ["Błąd podczas pobierania książek:"] }
      | .ok organizedBooks =>
        .ok { state := { st with books := organizedBooks }, requests := requests,
              alerts := [], console := [] }

/-! ## Session subscription of the mount effect (App.jsx lines 24-44) -/

/-- The body shared by the `getSession().then` callback and the
`onAuthStateChange` listener: `setSession(session); if (session) fetchUserBooks()`.
`closureSession` is the `session` variable seen by the `fetchUserBooks` the
callback refers to; `delivered` is the callback parameter. -/
def App.sessionCallback (closureSession : Option Session) (delivered : Option Session)
    (answer : Except JSError (List BookRecord)) (st : AppState) : Except JSError Result :=
  let st1 : AppState := { st with session := delivered }
  match delivered with
  | none => .ok { state := st1, requests := [], alerts := [], console := [] }
  | some _ => fetchUserBooks closureSession answer st1

/-- The callbacks registered by `useEffect(..., [])`. The effect runs once, after
the first render, so the `fetchUserBooks` its callbacks call is the one created
by the first render, whose `session` variable is the `useState(null)` value. -/
def App.mountEffect (delivered : Option Session)
    (answer : Except JSError (List BookRecord)) (st : AppState) : Except JSError Result :=
  App.sessionCallback App.initialState.session delivered answer st

/-! ## Add: `handleAddBook` (App.jsx lines 103-142) -/

/-- The object literal `newBook` (App.jsx lines 106-116). -/
def newBook (s : Session) (book : SearchItem) (now : String) : JSObject :=
  [("user_id", some s.user.id), ("title", book.title), ("authors", some book.authors),
   ("cover", some book.cover), ("isbn", some book.isbn),
   ("description", some book.description), ("status", some BOOK_STATUS.TO_READ),
   ("added_at", some now), ("created_at", some now)]

/-- The updater passed to `setBooks` by `handleAddBook` (lines 132-135). Spreading
a bucket that does not exist throws. -/
def handleAddBook.updater (savedBook : BookRecord) (prev : Books) : Except JSError Books :=
  match prev.get BOOK_STATUS.TO_READ with
  | none => .error { name := "TypeError", message := "undefined is not iterable" }
  | some bucket => .ok (prev.set BOOK_STATUS.TO_READ (bucket ++ [savedBook]))

/-- The handler `handleAddBook`. `now` is `new Date().toISOString()`; `answer` is
the store answer to the insert, `.error` for a non-null `error` field and
`.ok savedBook` for the row `data[0]`. -/
def handleAddBook (session : Option Session) (book : SearchItem) (now : String)
    (answer : Except JSError BookRecord) (st : AppState) : Except JSError Result :=
  match session with
  | none =>
    let error := JSError.typeError "null (reading user)"
    .ok { state := st, requests := [],
          alerts := ["Nie udało się dodać książki: " ++ error.message],
          console := ["Błąd podczas dodawania książki:"] }
  | some s =>
    let requests := [Request.insert "books" [newBook s book now]]
    match answer with
    | .error error =>
      .ok { state := st, requests := requests,
            alerts := ["Nie udało się dodać książki: " ++ error.message],
            console := ["Szczegóły błędu:", "Błąd podczas dodawania książki:"] }
    | .ok savedBook =>
      match handleAddBook.updater savedBook st.books with
      | .error e => .error e
      | .ok books =>
        .ok { state := { st with books := books, searchResults := [], searchQuery := "" },
              requests := requests, alerts := [], console := [] }

/-! ## Move: `handleStatusChange` (App.jsx lines 144-177) -/

/-- The updater passed to `setBooks` by `handleStatusChange` (lines 157-172).
`now` is the `new Date().toISOString()` evaluated inside the updater. -/
def handleStatusChange.updater (bookId fromStatus toStatus now : String) (prev : Books) :
    Except JSError Books :=
  match prev.get fromStatus with
  | none => .error (JSError.typeError "undefined (reading find)")
  | some fromBucket =>
    match fromBucket.find? (fun b => decide (b.id = bookId)) with
    | none => .ok prev
    | some book =>
      let updatedBook : BookRecord :=
        { book with status := toStatus, status_changed_at := some now }
      match prev.get toStatus with
      | none => .error { name := "TypeError", message := "undefined is not iterable" }
      | some toBucket =>
        .ok ((prev.set fromStatus (fromBucket.filter (fun b => decide (b.id ≠ bookId)))).set
              toStatus (toBucket ++ [updatedBook]))

/-- The handler `handleStatusChange`. `nowRequest` is the timestamp sent to the
store, `nowLocal` the one evaluated by the updater; `answer` is the store answer
to the update, `.error` for a non-null `error` field. -/
def handleStatusChange (session : Option Session) (bookId fromStatus toStatus : String)
    (nowRequest nowLocal : String) (answer : Except JSError Unit) (st : AppState) :
    Except JSError Result :=
  match session with
  | none =>
    let error := JSError.typeError "null (reading user)"
    .ok { state := st, requests := [],
          alerts := ["Nie udało się zaktualizować statusu: " ++ error.message],
          console := ["Błąd podczas aktualizacji statusu:"] }
  | some s =>
    let requests := [Request.update "books"
      [("status", toStatus), ("status_changed_at", nowRequest)] bookId s.user.id]
    match answer with
    | .error error =>
      .ok { state := st, requests := requests,
            alerts := ["Nie udało się zaktualizować statusu: " ++ error.message],
            console := ["Błąd podczas aktualizacji statusu:"] }
    | .ok _ =>
      match handleStatusChange.updater bookId fromStatus toStatus nowLocal st.books with
      | .error e => .error e
      | .ok books =>
        .ok { state := { st with books := books }, requests := requests,
              alerts := [], console := [] }

/-! ## Search: `searchBooks` (App.jsx lines 72-101) -/

/-- The object `imageLinks` of a catalog volume. -/
structure ImageLinks where
  thumbnail : Option String
  deriving DecidableEq, Repr

/-- An element of `industryIdentifiers` of a catalog volume. -/
structure IndustryIdentifier where
  identifier : Option String
  deriving DecidableEq, Repr

/-- The object `volumeInfo` of a catalog volume; `none` is an absent property. -/
structure VolumeInfo where
  title : Option String
  authors : Option (List String)
  imageLinks : Option ImageLinks
  industryIdentifiers : Option (List IndustryIdentifier)
  description : Option String
  deriving DecidableEq, Repr

/-- An element of `items` in the catalog response. Every property the handler
reads may be absent (`none`); a property that is present has the type the
catalog gives it. An element that is `null` or not an object behaves as the
element with no `volumeInfo`. -/
structure Volume where
  id : Option String
  volumeInfo : Option VolumeInfo
  deriving DecidableEq, Repr

/-- What the catalog request ends in. -/
inductive CatalogAnswer where
  /-- The promise of `fetch` rejects. -/
  | fetchRejected (e : JSError)
  /-- The promise of `response.json()` rejects: the body is not JSON. -/
  | jsonRejected (e : JSError)
  /-- The body decodes to `null`. -/
  | jsonNull
  /-- The body decodes to an object; `items` is `none` when it has no such property. -/
  | json (items : Option (List Volume))
  deriving DecidableEq, Repr

/-- The white space and line terminator code points removed by `String.prototype.trim`. -/
def isJSWhiteSpace (c : Char) : Bool :=
  let n := c.toNat
  n == 0x09 || n == 0x0A || n == 0x0B || n == 0x0C || n == 0x0D || n == 0x20 ||
  n == 0xA0 || n == 0x1680 || (0x2000 ≤ n && n ≤ 0x200A) || n == 0x2028 ||
  n == 0x2029 || n == 0x202F || n == 0x205F || n == 0x3000 || n == 0xFEFF

/-- The method `trim` of a string. -/
def jsTrim (s : String) : String :=
  String.mk ((s.data.dropWhile isJSWhiteSpace).reverse.dropWhile isJSWhiteSpace).reverse

/-- The expression `v || d` for a string or `undefined` on the left: the empty
string is falsy like `undefined`. -/
def jsOr (v : Option String) (d : String) : String :=
  match v with
  | none => d
  | some s => if s = "" then d else s

/-- The method `join` of an array of strings. -/
def jsJoin (sep : String) : List String → String
  | [] => ""
  | [a] => a
  | a :: b :: rest => a ++ sep ++ jsJoin sep (b :: rest)

/-- The arrow function mapped over `data.items` (App.jsx lines 85-92). Reading
`title` of a `volumeInfo` that does not exist throws. -/
def formatVolume (book : Volume) : Except JSError SearchItem :=
  match book.volumeInfo with
  | none => .error (JSError.typeError "undefined (reading title)")
  | some volumeInfo =>
    .ok { id := book.id
          title := volumeInfo.title
          authors := jsOr (volumeInfo.authors.map (jsJoin ", ")) "Nieznany autor"
          cover := jsOr (volumeInfo.imageLinks.bind (fun l => l.thumbnail))
            "/placeholder-book.png"
          isbn := jsOr ((volumeInfo.industryIdentifiers.bind (fun l => l.head?)).bind
            (fun i => i.identifier)) "Brak ISBN"
          description := jsOr volumeInfo.description "Brak opisu" }

/-- The call `items.map(...)` with the arrow function above: the first element on
which the function throws interrupts the map. -/
def mapFormatVolume : List Volume → Except JSError (List SearchItem)
  | [] => .ok []
  | book :: rest =>
    match formatVolume book with
    | .error e => .error e
    | .ok item =>
      match mapFormatVolume rest with
      | .error e => .error e
      | .ok items => .ok (item :: items)

/-- The `try` block of `searchBooks` up to `formattedResults`:
`data.items?.map(...) || []`, with the exceptions that can interrupt it. -/
def searchBooks.formattedResults (answer : CatalogAnswer) : Except JSError (List SearchItem) :=
  match answer with
  | .fetchRejected e => .error e
  | .jsonRejected e => .error e
  | .jsonNull => .error (JSError.typeError "null (reading items)")
  | .json none => .ok []
  | .json (some items) => mapFormatVolume items

/-- The handler `searchBooks`. `searchQuery` is the variable of the closure;
`answer` is what the catalog request ends in. -/
def searchBooks (searchQuery : String) (answer : CatalogAnswer) (st : AppState) :
    Except JSError Result :=
  if jsTrim searchQuery = "" then
    .ok { state := st, requests := [], alerts := [], console := [] }
  else
    let st1 : AppState := { st with isLoading := true }
    let requests := [Request.catalog searchQuery 5]
    -- try / catch: the catch block logs and empties the results
    let afterCatch : Except JSError (AppState × List String) :=
      match searchBooks.formattedResults answer with
      | .ok formattedResults => .ok ({ st1 with searchResults := formattedResults }, [])
      | .error _ => .ok ({ st1 with searchResults := [] }, ["Błąd podczas wyszukiwania:"])
    -- finally: `setIsLoading(false)`, then an uncaught error would go on
    match afterCatch with
    | .ok (st2, console) =>
      .ok { state := { st2 with isLoading := false }, requests := requests,
            alerts := [], console := console }
    | .error e => .error e

/-! ## Well-formed collection states -/

/-- A collection state has exactly the four status keys, in the order of the
object literal. -/
def IsCollectionState (s : Books) : Prop := s.keys = BOOK_STATUS.values

/-- All records of all buckets, bucket after bucket. -/
def allRecords (s : Books) : List BookRecord := (s.map Prod.snd).flatten

/-- Every record sits in the bucket named by its `status`, and no `id` occurs twice
across the buckets. -/
def WellFormed (s : Books) : Prop :=
  (∀ p ∈ s, ∀ b ∈ p.2, b.status = p.1) ∧ ((allRecords s).map (fun b => b.id)).Nodup

instance (s : Books) : Decidable (IsCollectionState s) := by
  unfold IsCollectionState; infer_instance

instance (s : Books) : Decidable (WellFormed s) := by
  unfold WellFormed; infer_instance

/-- The partition of the rows by status: the bucket of `k` is the subsequence of
the rows whose status is `k`. -/
def partitionByStatus (rows : List BookRecord) : Books :=
  BOOK_STATUS.values.map (fun k => (k, rows.filter (fun b => decide (b.status = k))))

/-- Number of records of `l` whose `id` is `x`. -/
def idCount (x : String) (l : List BookRecord) : Nat := (l.map (fun b => b.id)).count x

/-! ## Examples -/

/-- A sample row. -/
def dune : BookRecord :=
  { id := "1", user_id := "u1", title := "Dune", authors := "Frank Herbert",
    cover := "/placeholder-book.png", isbn := "Brak ISBN", description := "Brak opisu",
    status := BOOK_STATUS.TO_READ, added_at := "2024-01-01T00:00:00.000Z",
    status_changed_at := none }

/-- A sample session. -/
def u1 : Session := { user := { id := "u1" } }

/-- The collection state whose bucket TO_READ holds `dune` only. -/
def booksWithDune : Books :=
  [(BOOK_STATUS.TO_READ, [dune]), (BOOK_STATUS.READING, []),
   (BOOK_STATUS.READ, []), (BOOK_STATUS.ABANDONED, [])]

/-- The search item of the scenario of the add operation. -/
def foundation : SearchItem :=
  { id := some "catalog-7", title := some "Foundation", authors := "Asimov",
    cover := "/placeholder-book.png", isbn := "Brak ISBN", description := "Brak opisu" }

/-- The row the store returns for the first insert of `foundation`. -/
def foundation42 : BookRecord :=
  { id := "42", user_id := "u1", title := "Foundation", authors := "Asimov",
    cover := "/placeholder-book.png", isbn := "Brak ISBN", description := "Brak opisu",
    status := BOOK_STATUS.TO_READ, added_at := "2024-03-03T00:00:00.000Z",
    status_changed_at := none }

/-- The row the store returns for a second insert of `foundation`. -/
def foundation43 : BookRecord :=
  { foundation42 with id := "43", added_at := "2024-03-03T00:00:05.000Z" }

/-- A catalog volume whose author list holds one empty name. -/
def anonymousVolume : Volume :=
  { id := some "v1",
    volumeInfo := some { title := some "Beowulf", authors := some [""], imageLinks := none,
                         industryIdentifiers := none, description := some "An epic poem" } }

/-- A catalog volume with every field the handler reads. -/
def hobbitVolume : Volume :=
  { id := some "v2",
    volumeInfo := some { title := some "The Hobbit", authors := some ["J. R. R. Tolkien"],
                         imageLinks := some { thumbnail := some "http://books.example/h.png" },
                         industryIdentifiers := some [{ identifier := some "9780261102217" }],
                         description := some "There and back again" } }

/-- A catalog item that has an id and no `volumeInfo`. -/
def bareVolume : Volume := { id := some "v3", volumeInfo := none }

/-- A store error, as a failed request reports it. -/
def networkError : JSError := { name := "FetchError", message := "Failed to fetch" }

/-! ## Lemmas on the object `books` -/

theorem status_ne :
    BOOK_STATUS.TO_READ ≠ BOOK_STATUS.READING ∧ BOOK_STATUS.TO_READ ≠ BOOK_STATUS.READ ∧
    BOOK_STATUS.TO_READ ≠ BOOK_STATUS.ABANDONED ∧ BOOK_STATUS.READING ≠ BOOK_STATUS.READ ∧
    BOOK_STATUS.READING ≠ BOOK_STATUS.ABANDONED ∧ BOOK_STATUS.READ ≠ BOOK_STATUS.ABANDONED := by
  decide

theorem Books.get_of_mem_keys (s : Books) (k : String) (h : k ∈ s.keys) :
    ∃ l, s.get k = some l := by
  induction s with
  | nil => simp [Books.keys] at h
  | cons p rest ih =>
    obtain ⟨k', v⟩ := p
    by_cases hk : k' = k
    · exact ⟨v, by simp [Books.get, hk]⟩
    · have : k ∈ Books.keys rest := by
        simp [Books.keys] at h ⊢
        rcases h with h | h
        · exact absurd h.symm hk
        · exact h
      obtain ⟨l, hl⟩ := ih this
      exact ⟨l, by simp [Books.get, hk, hl]⟩

theorem Books.keys_set (s : Books) (k : String) (v old : List BookRecord)
    (h : s.get k = some old) : (s.set k v).keys = s.keys := by
  induction s with
  | nil => simp [Books.get] at h
  | cons p rest ih =>
    obtain ⟨k', v'⟩ := p
    by_cases hk : k' = k
    · simp [Books.set, hk, Books.keys]
    · simp [Books.get, hk] at h
      have := ih h
      simp [Books.keys] at this
      simp [Books.set, hk, Books.keys, this]

theorem Books.get_set_same (s : Books) (k : String) (v : List BookRecord) :
    (s.set k v).get k = some v := by
  induction s with
  | nil => simp [Books.set, Books.get]
  | cons p rest ih =>
    obtain ⟨k', v'⟩ := p
    by_cases hk : k' = k
    · simp [Books.set, hk, Books.get]
    · simp [Books.set, hk, Books.get, ih]

theorem Books.get_set_ne (s : Books) (k k2 : String) (v : List BookRecord) (hne : k2 ≠ k) :
    (s.set k v).get k2 = s.get k2 := by
  induction s with
  | nil => simp [Books.set, Books.get, Ne.symm hne]
  | cons p rest ih =>
    obtain ⟨k', v'⟩ := p
    by_cases hk : k' = k
    · subst hk
      simp [Books.set, Books.get, Ne.symm hne]
    · by_cases hk2 : k' = k2
      · subst hk2
        simp [Books.set, hk, Books.get]
      · simp [Books.set, hk, Books.get, hk2, ih]

theorem statusOK_set (s : Books) (k : String) (v : List BookRecord)
    (hs : ∀ p ∈ s, ∀ b ∈ p.2, b.status = p.1) (hv : ∀ b ∈ v, b.status = k) :
    ∀ p ∈ s.set k v, ∀ b ∈ p.2, b.status = p.1 := by
  induction s with
  | nil =>
    intro p hp b hb
    simp [Books.set] at hp
    subst hp
    exact hv b hb
  | cons q rest ih =>
    obtain ⟨k', v'⟩ := q
    intro p hp b hb
    by_cases hk : k' = k
    · simp [Books.set, hk] at hp
      rcases hp with hp | hp
      · subst hp; exact hv b hb
      · exact hs p (List.mem_cons_of_mem _ hp) b hb
    · simp only [Books.set, hk, if_false, List.mem_cons] at hp
      rcases hp with hp | hp
      · exact hs p (by simp [hp]) b hb
      · exact ih (fun p hp => hs p (List.mem_cons_of_mem _ hp)) p hp b hb

theorem statusOK_get (s : Books) (k : String) (l : List BookRecord)
    (hs : ∀ p ∈ s, ∀ b ∈ p.2, b.status = p.1) (h : s.get k = some l) :
    ∀ b ∈ l, b.status = k := by
  induction s with
  | nil => simp [Books.get] at h
  | cons q rest ih =>
    obtain ⟨k', v'⟩ := q
    by_cases hk : k' = k
    · simp [Books.get, hk] at h
      subst h
      intro b hb
      have := hs (k', v') (by simp) b hb
      simpa [hk] using this
    · simp [Books.get, hk] at h
      exact ih (fun p hp => hs p (List.mem_cons_of_mem _ hp)) h

theorem idCount_append (x : String) (l1 l2 : List BookRecord) :
    idCount x (l1 ++ l2) = idCount x l1 + idCount x l2 := by
  simp [idCount]

theorem idCount_set (s : Books) (k x : String) (v old : List BookRecord)
    (h : s.get k = some old) :
    idCount x (allRecords (s.set k v)) + idCount x old
      = idCount x (allRecords s) + idCount x v := by
  induction s with
  | nil => simp [Books.get] at h
  | cons q rest ih =>
    obtain ⟨k', v'⟩ := q
    by_cases hk : k' = k
    · simp [Books.get, hk] at h
      subst h
      simp [Books.set, hk, allRecords, idCount]
      omega
    · simp [Books.get, hk] at h
      have := ih h
      simp [allRecords, idCount] at this
      simp [Books.set, hk, allRecords, idCount]
      omega

theorem idCount_filter_ne (x y : String) (l : List BookRecord) :
    idCount x (l.filter (fun b => decide (b.id ≠ y)))
      = if x = y then 0 else idCount x l := by
  induction l with
  | nil => simp [idCount]
  | cons b rest ih =>
    by_cases hb : b.id = y
    · have : idCount x (List.filter (fun b => decide (b.id ≠ y)) (b :: rest))
          = idCount x (List.filter (fun b => decide (b.id ≠ y)) rest) := by
        simp [List.filter, hb]
      rw [this, ih]
      by_cases hx : x = y
      · simp [hx]
      · have hne : b.id ≠ x := by rw [hb]; exact Ne.symm hx
        simp [hx, idCount, List.count_cons, hne]
    · have : idCount x (List.filter (fun b => decide (b.id ≠ y)) (b :: rest))
          = idCount x [b] + idCount x (List.filter (fun b => decide (b.id ≠ y)) rest) := by
        simp [List.filter, hb, idCount, List.count_cons]
        omega
      rw [this, ih]
      by_cases hx : x = y
      · subst hx
        simp [idCount, List.count_cons, hb]
      · simp [hx, idCount, List.count_cons]
        omega

theorem idCount_pos_of_find (bookId : String) (l : List BookRecord) (book : BookRecord)
    (h : l.find? (fun b => decide (b.id = bookId)) = some book) :
    book.id = bookId ∧ book ∈ l ∧ 1 ≤ idCount bookId l := by
  have h1 := List.find?_some h
  have h2 := List.mem_of_find?_eq_some h
  simp at h1
  refine ⟨h1, h2, ?_⟩
  have : bookId ∈ l.map (fun b => b.id) := List.mem_map.mpr ⟨book, h2, h1⟩
  exact List.count_pos_iff.mpr this

theorem nodup_ids_iff (l : List BookRecord) :
    (l.map (fun b => b.id)).Nodup ↔ ∀ x, idCount x l ≤ 1 := by
  simp [idCount, List.nodup_iff_count_le_one]

/-! ## Load -/

theorem forEachPush_buckets (rows : List BookRecord)
    (h : ∀ b ∈ rows, b.status ∈ BOOK_STATUS.values) (a b c d : List BookRecord) :
    forEachPush [(BOOK_STATUS.TO_READ, a), (BOOK_STATUS.READING, b),
        (BOOK_STATUS.READ, c), (BOOK_STATUS.ABANDONED, d)] rows
      = .ok [(BOOK_STATUS.TO_READ,
               a ++ rows.filter (fun r => decide (r.status = BOOK_STATUS.TO_READ))),
             (BOOK_STATUS.READING,
               b ++ rows.filter (fun r => decide (r.status = BOOK_STATUS.READING))),
             (BOOK_STATUS.READ,
               c ++ rows.filter (fun r => decide (r.status = BOOK_STATUS.READ))),
             (BOOK_STATUS.ABANDONED,
               d ++ rows.filter (fun r => decide (r.status = BOOK_STATUS.ABANDONED)))] := by
  obtain ⟨n12, n13, n14, n23, n24, n34⟩ := status_ne
  induction rows generalizing a b c d with
  | nil => simp [forEachPush]
  | cons r rest ih =>
    have hr : r.status ∈ BOOK_STATUS.values := h r (by simp)
    have hrest : ∀ b ∈ rest, b.status ∈ BOOK_STATUS.values :=
      fun b hb => h b (List.mem_cons_of_mem _ hb)
    simp only [BOOK_STATUS.values, List.mem_cons, List.mem_singleton, List.not_mem_nil,
      or_false] at hr
    rcases hr with hr | hr | hr | hr
    · simp [forEachPush, pushBook, Books.get, Books.set, hr, ih hrest, List.filter,
        n12, n13, n14, n23, n24, n34]
    · simp [forEachPush, pushBook, Books.get, Books.set, hr, ih hrest, List.filter,
        n12, n13, n14, n23, n24, n34, Ne.symm n12]
    · simp [forEachPush, pushBook, Books.get, Books.set, hr, ih hrest, List.filter,
        n12, n13, n14, n23, n24, n34, Ne.symm n12, Ne.symm n13, Ne.symm n23]
    · simp [forEachPush, pushBook, Books.get, Books.set, hr, ih hrest, List.filter,
        n12, n13, n14, n23, n24, n34, Ne.symm n14, Ne.symm n24, Ne.symm n34]

theorem forEachPush_emptyBooks (rows : List BookRecord)
    (h : ∀ b ∈ rows, b.status ∈ BOOK_STATUS.values) :
    forEachPush emptyBooks rows = .ok (partitionByStatus rows) := by
  have := forEachPush_buckets rows h [] [] [] []
  simpa [emptyBooks, partitionByStatus, BOOK_STATUS.values] using this

theorem partitionByStatus_get (rows : List BookRecord) (k : String)
    (hk : k ∈ BOOK_STATUS.values) :
    (partitionByStatus rows).get k = some (rows.filter (fun b => decide (b.status = k))) := by
  obtain ⟨n12, n13, n14, n23, n24, n34⟩ := status_ne
  simp only [BOOK_STATUS.values, List.mem_cons, List.mem_singleton, List.not_mem_nil,
    or_false] at hk
  rcases hk with hk | hk | hk | hk <;> subst hk <;>
    simp [partitionByStatus, BOOK_STATUS.values, Books.get, n12, n13, n14, n23, n24, n34]

/-- Claim C5. For every session of the closure, every earlier state and every
sequence of rows a successful select returns whose statuses are among the four
labels, `fetchUserBooks` finishes without an uncaught error and replaces `books`
by an object that has exactly the four status keys and whose bucket for each
status `k` is the subsequence of the rows with status `k`, in the order of the
rows. -/
theorem C5_load_partitions_by_status (s : Session) (rows : List BookRecord) (st : AppState)
    (h : ∀ b ∈ rows, b.status ∈ BOOK_STATUS.values) :
    ∃ r, fetchUserBooks (some s) (.ok rows) st = .ok r ∧
      r.state = { st with books := r.state.books } ∧
      r.state.books.keys = BOOK_STATUS.values ∧
      ∀ k ∈ BOOK_STATUS.values,
        r.state.books.get k = some (rows.filter (fun b => decide (b.status = k))) := by
  refine ⟨{ state := { st with books := partitionByStatus rows },
            requests := [Request.select "books" s.user.id], alerts := [], console := [] },
          ?_, rfl, ?_, ?_⟩
  · simp [fetchUserBooks, forEachPush_emptyBooks rows h]
  · simp [partitionByStatus, Books.keys, BOOK_STATUS.values]
  · intro k hk
    exact partitionByStatus_get rows k hk

/-- Witness of C5: the single row with id 1 of user u1, status TO_READ and title
Dune gives the bucket TO_READ holding that row and three empty buckets, whatever
the earlier state. -/
theorem C5_load_witness :
    (∀ b ∈ [dune], b.status ∈ BOOK_STATUS.values) ∧
    ∃ r, fetchUserBooks (some u1) (.ok [dune])
          { App.initialState with books := [(BOOK_STATUS.READ, [dune])] } = .ok r ∧
      r.state.books = [(BOOK_STATUS.TO_READ, [dune]), (BOOK_STATUS.READING, []),
                       (BOOK_STATUS.READ, []), (BOOK_STATUS.ABANDONED, [])] := by
  have hrows : ∀ b ∈ [dune], b.status ∈ BOOK_STATUS.values := by decide
  obtain ⟨r, hr, _, _, _⟩ := C5_load_partitions_by_status u1 [dune]
    { App.initialState with books := [(BOOK_STATUS.READ, [dune])] } hrows
  refine ⟨hrows, r, hr, ?_⟩
  have h2 : fetchUserBooks (some u1) (.ok [dune])
      { App.initialState with books := [(BOOK_STATUS.READ, [dune])] }
      = .ok { state := { App.initialState with books :=
                [(BOOK_STATUS.TO_READ, [dune]), (BOOK_STATUS.READING, []),
                 (BOOK_STATUS.READ, []), (BOOK_STATUS.ABANDONED, [])] },
              requests := [Request.select "books" "u1"], alerts := [], console := [] } := by
    decide
  rw [h2] at hr
  injection hr with hr
  rw [← hr]

/-! ## The bucket invariant -/

theorem idCount_partitionByStatus_le (x : String) (rows : List BookRecord) :
    idCount x (allRecords (partitionByStatus rows)) ≤ idCount x rows := by
  obtain ⟨n12, n13, n14, n23, n24, n34⟩ := status_ne
  induction rows with
  | nil => simp [partitionByStatus, allRecords, idCount, BOOK_STATUS.values]
  | cons r rest ih =>
    simp only [partitionByStatus, allRecords, BOOK_STATUS.values, List.map_cons, List.map_nil,
      List.flatten_cons, List.flatten_nil, List.append_nil, idCount_append] at ih ⊢
    have hcons : idCount x (r :: rest) = idCount x [r] + idCount x rest := by
      simp [idCount, List.count_cons]; omega
    rw [hcons]
    by_cases h1 : r.status = BOOK_STATUS.TO_READ
    · simp [List.filter, h1, n12, n13, n14] at ih ⊢
      simp [idCount, List.count_cons] at ih ⊢
      omega
    · by_cases h2 : r.status = BOOK_STATUS.READING
      · simp [List.filter, h2, Ne.symm n12, n23, n24] at ih ⊢
        simp [idCount, List.count_cons] at ih ⊢
        omega
      · by_cases h3 : r.status = BOOK_STATUS.READ
        · simp [List.filter, h3, Ne.symm n13, Ne.symm n23, n34] at ih ⊢
          simp [idCount, List.count_cons] at ih ⊢
          omega
        · by_cases h4 : r.status = BOOK_STATUS.ABANDONED
          · simp [List.filter, h4, Ne.symm n14, Ne.symm n24, Ne.symm n34] at ih ⊢
            simp [idCount, List.count_cons] at ih ⊢
            omega
          · simp [List.filter, h1, h2, h3, h4] at ih ⊢
            omega

theorem wellFormed_partitionByStatus (rows : List BookRecord)
    (hid : (rows.map (fun b => b.id)).Nodup) : WellFormed (partitionByStatus rows) := by
  constructor
  · intro p hp b hb
    simp only [partitionByStatus, List.mem_map] at hp
    obtain ⟨k, _, rfl⟩ := hp
    simp only [List.mem_filter, decide_eq_true_eq] at hb
    exact hb.2
  · rw [nodup_ids_iff]
    intro x
    exact le_trans (idCount_partitionByStatus_le x rows) ((nodup_ids_iff rows).mp hid x)

theorem wellFormed_add (s : Books) (b : BookRecord) (bucket : List BookRecord)
    (hw : WellFormed s) (hget : s.get BOOK_STATUS.TO_READ = some bucket)
    (hst : b.status = BOOK_STATUS.TO_READ)
    (hid : b.id ∉ (allRecords s).map (fun r => r.id)) :
    WellFormed (s.set BOOK_STATUS.TO_READ (bucket ++ [b])) := by
  obtain ⟨hs, hn⟩ := hw
  constructor
  · apply statusOK_set s _ _ hs
    intro r hr
    rcases List.mem_append.mp hr with hr | hr
    · exact statusOK_get s _ _ hs hget r hr
    · simp at hr; subst hr; exact hst
  · rw [nodup_ids_iff] at hn ⊢
    intro x
    have h1 := idCount_set s BOOK_STATUS.TO_READ x (bucket ++ [b]) bucket hget
    rw [idCount_append] at h1
    have h2 := hn x
    by_cases hx : x = b.id
    · subst hx
      have h3 : idCount b.id (allRecords s) = 0 := by
        simp only [idCount]
        exact List.count_eq_zero.mpr hid
      have h4 : idCount b.id [b] = 1 := by simp [idCount]
      omega
    · have h4 : idCount x [b] = 0 := by
        simp [idCount, List.count_cons, Ne.symm hx]
      omega

theorem wellFormed_move (s : Books) (bookId fromStatus toStatus now : String)
    (fromBucket toBucket : List BookRecord) (book : BookRecord)
    (hw : WellFormed s) (hne : fromStatus ≠ toStatus)
    (hfrom : s.get fromStatus = some fromBucket) (hto : s.get toStatus = some toBucket)
    (hfind : fromBucket.find? (fun b => decide (b.id = bookId)) = some book) :
    WellFormed ((s.set fromStatus (fromBucket.filter (fun b => decide (b.id ≠ bookId)))).set
      toStatus (toBucket ++ [{ book with status := toStatus, status_changed_at := some now }])) := by
  obtain ⟨hs, hn⟩ := hw
  obtain ⟨hbid, _, hpos⟩ := idCount_pos_of_find bookId fromBucket book hfind
  constructor
  · apply statusOK_set
    · apply statusOK_set s _ _ hs
      intro r hr
      exact statusOK_get s _ _ hs hfrom r (List.mem_filter.mp hr).1
    · intro r hr
      rcases List.mem_append.mp hr with hr | hr
      · exact statusOK_get s _ _ hs hto r hr
      · simp at hr; subst hr; rfl
  · rw [nodup_ids_iff] at hn ⊢
    intro x
    have hto1 : (s.set fromStatus (fromBucket.filter (fun b => decide (b.id ≠ bookId)))).get
        toStatus = some toBucket := by
      rw [Books.get_set_ne _ _ _ _ (Ne.symm hne)]; exact hto
    have h1 := idCount_set s fromStatus x
      (fromBucket.filter (fun b => decide (b.id ≠ bookId))) fromBucket hfrom
    have h2 := idCount_set _ toStatus x
      (toBucket ++ [{ book with status := toStatus, status_changed_at := some now }])
      toBucket hto1
    rw [idCount_append] at h2
    rw [idCount_filter_ne] at h1
    have h3 := hn x
    have h4 := idCount_set s toStatus x [] toBucket hto
    have h5 := idCount_set (s.set toStatus []) fromStatus x [] fromBucket
      (by rw [Books.get_set_ne _ _ _ _ hne]; exact hfrom)
    have h6 : idCount x ([] : List BookRecord) = 0 := by simp [idCount]
    by_cases hx : x = bookId
    · subst hx
      have h7 : idCount x
          [({ book with status := toStatus, status_changed_at := some now } : BookRecord)]
          = 1 := by simp [idCount, hbid]
      simp only [if_true] at h1
      omega
    · have h7 : idCount x
          [({ book with status := toStatus, status_changed_at := some now } : BookRecord)]
          = 0 := by
        simp [idCount, List.count_cons, hbid, Ne.symm hx]
      simp only [hx, if_false] at h1
      omega

/-- Claim C1. The initial `books` is a collection state (four status keys) and is
well-formed; and each of the following yields a well-formed collection state:
(1) `fetchUserBooks` on rows with pairwise distinct ids and statuses among the
four labels; (2) `handleAddBook` from a well-formed collection state when the
store returns a record with status TO_READ and an id not yet present; (3) the
updater of `handleStatusChange` from a well-formed collection state, for
`fromStatus` and `toStatus` among the four labels and different. -/
theorem C1_bucket_invariant :
    (IsCollectionState App.initialState.books ∧ WellFormed App.initialState.books) ∧
    (∀ (sess : Session) (rows : List BookRecord) (st : AppState),
      (rows.map (fun b => b.id)).Nodup →
      (∀ b ∈ rows, b.status ∈ BOOK_STATUS.values) →
      ∃ r, fetchUserBooks (some sess) (.ok rows) st = .ok r ∧
        IsCollectionState r.state.books ∧ WellFormed r.state.books) ∧
    (∀ (sess : Session) (item : SearchItem) (now : String) (b : BookRecord) (st : AppState),
      IsCollectionState st.books → WellFormed st.books →
      b.status = BOOK_STATUS.TO_READ →
      b.id ∉ (allRecords st.books).map (fun r => r.id) →
      ∃ r, handleAddBook (some sess) item now (.ok b) st = .ok r ∧
        IsCollectionState r.state.books ∧ WellFormed r.state.books) ∧
    (∀ (bookId fromStatus toStatus now : String) (prev : Books),
      IsCollectionState prev → WellFormed prev →
      fromStatus ∈ BOOK_STATUS.values → toStatus ∈ BOOK_STATUS.values →
      fromStatus ≠ toStatus →
      ∃ next, handleStatusChange.updater bookId fromStatus toStatus now prev = .ok next ∧
        IsCollectionState next ∧ WellFormed next) := by
  refine ⟨⟨by decide, by decide⟩, ?_, ?_, ?_⟩
  · intro sess rows st hid hst
    refine ⟨{ state := { st with books := partitionByStatus rows },
              requests := [Request.select "books" sess.user.id], alerts := [], console := [] },
            ?_, ?_, wellFormed_partitionByStatus rows hid⟩
    · simp [fetchUserBooks, forEachPush_emptyBooks rows hst]
    · simp [IsCollectionState, partitionByStatus, Books.keys, BOOK_STATUS.values]
  · intro sess item now b st hcs hw hst hid
    have hmem : BOOK_STATUS.TO_READ ∈ st.books.keys := by
      rw [hcs]; simp [BOOK_STATUS.values]
    obtain ⟨bucket, hget⟩ := Books.get_of_mem_keys _ _ hmem
    refine ⟨{ state := { st with books := st.books.set BOOK_STATUS.TO_READ (bucket ++ [b]),
                                 searchResults := [], searchQuery := "" },
              requests := [Request.insert "books" [newBook sess item now]],
              alerts := [], console := [] }, ?_, ?_, ?_⟩
    · simp [handleAddBook, handleAddBook.updater, hget]
    · simp only [IsCollectionState]
      rw [Books.keys_set _ _ _ _ hget]; exact hcs
    · exact wellFormed_add st.books b bucket hw hget hst hid
  · intro bookId fromStatus toStatus now prev hcs hw hf ht hne
    obtain ⟨fromBucket, hfrom⟩ := Books.get_of_mem_keys prev fromStatus (by rw [hcs]; exact hf)
    obtain ⟨toBucket, hto⟩ := Books.get_of_mem_keys prev toStatus (by rw [hcs]; exact ht)
    cases hfind : fromBucket.find? (fun b => decide (b.id = bookId)) with
    | none =>
      exact ⟨prev, by simp [handleStatusChange.updater, hfrom, hfind], hcs, hw⟩
    | some book =>
      refine ⟨(prev.set fromStatus (fromBucket.filter (fun b => decide (b.id ≠ bookId)))).set
          toStatus (toBucket ++
            [{ book with status := toStatus, status_changed_at := some now }]),
        by simp only [handleStatusChange.updater, hfrom, hfind, hto], ?_, ?_⟩
      · simp only [IsCollectionState]
        have hto1 : (prev.set fromStatus
            (fromBucket.filter (fun b => decide (b.id ≠ bookId)))).get toStatus
            = some toBucket := by
          rw [Books.get_set_ne _ _ _ _ (Ne.symm hne)]; exact hto
        rw [Books.keys_set _ _ _ _ hto1, Books.keys_set _ _ _ _ hfrom]; exact hcs
      · exact wellFormed_move prev bookId fromStatus toStatus now fromBucket toBucket book
          hw hne hfrom hto hfind

/-- Witness of C1: moving the record with id 1 from TO_READ to READ in the
well-formed state that holds it gives a well-formed collection state. -/
theorem C1_bucket_invariant_witness :
    (IsCollectionState booksWithDune ∧ WellFormed booksWithDune ∧
      BOOK_STATUS.TO_READ ∈ BOOK_STATUS.values ∧ BOOK_STATUS.READ ∈ BOOK_STATUS.values ∧
      BOOK_STATUS.TO_READ ≠ BOOK_STATUS.READ) ∧
    ∃ next, handleStatusChange.updater "1" BOOK_STATUS.TO_READ BOOK_STATUS.READ
        "2024-02-02T00:00:00.000Z" booksWithDune = .ok next ∧
      IsCollectionState next ∧ WellFormed next :=
  ⟨by decide,
   C1_bucket_invariant.2.2.2 "1" BOOK_STATUS.TO_READ BOOK_STATUS.READ
     "2024-02-02T00:00:00.000Z" booksWithDune (by decide) (by decide) (by decide) (by decide)
     (by decide)⟩

/-! ## Move -/

theorem handleStatusChange_found (sess : Session) (st : AppState)
    (bookId A B nowRequest nowLocal : String) (bucketA bucketB : List BookRecord)
    (book : BookRecord) (hbucket : st.books.get A = some bucketA)
    (hto : st.books.get B = some bucketB)
    (hfind : bucketA.find? (fun b => decide (b.id = bookId)) = some book) :
    handleStatusChange (some sess) bookId A B nowRequest nowLocal (.ok ()) st
      = .ok { state := { st with books :=
                ((st.books.set A (bucketA.filter (fun b => decide (b.id ≠ bookId)))).set B
                  (bucketB ++ [{ book with status := B, status_changed_at := some nowLocal }])) },
              requests := [Request.update "books"
                [("status", B), ("status_changed_at", nowRequest)] bookId sess.user.id],
              alerts := [], console := [] } := by
  simp only [handleStatusChange, handleStatusChange.updater, hbucket, hfind, hto]

theorem handleStatusChange_not_found (sess : Session) (st : AppState)
    (bookId A B nowRequest nowLocal : String) (bucketA : List BookRecord)
    (hbucket : st.books.get A = some bucketA)
    (hfind : bucketA.find? (fun b => decide (b.id = bookId)) = none) :
    handleStatusChange (some sess) bookId A B nowRequest nowLocal (.ok ()) st
      = .ok { state := st,
              requests := [Request.update "books"
                [("status", B), ("status_changed_at", nowRequest)] bookId sess.user.id],
              alerts := [], console := [] } := by
  simp only [handleStatusChange, handleStatusChange.updater, hbucket, hfind]

theorem first_of_id_unique (s : Books) (A bookId : String) (bucketA : List BookRecord)
    (r : BookRecord) (hw : WellFormed s) (hbucket : s.get A = some bucketA)
    (hr : r ∈ bucketA) (hid : r.id = bookId) :
    bucketA.find? (fun b => decide (b.id = bookId)) = some r := by
  have hnd : (bucketA.map (fun b => b.id)).Nodup := by
    rw [nodup_ids_iff]
    intro x
    have e := idCount_set s A x [] bucketA hbucket
    have e0 : idCount x ([] : List BookRecord) = 0 := by simp [idCount]
    have e1 := (nodup_ids_iff _).mp hw.2 x
    omega
  have hsome : (bucketA.find? (fun b => decide (b.id = bookId))).isSome := by
    rw [List.find?_isSome]
    exact ⟨r, hr, by simpa using hid⟩
  obtain ⟨book, hfind⟩ := Option.isSome_iff_exists.mp hsome
  obtain ⟨hbid, hmem, _⟩ := idCount_pos_of_find bookId bucketA book hfind
  have hbr : book = r := List.inj_on_of_nodup_map hnd hmem hr (by rw [hbid, hid])
  rw [hfind, hbr]

/-- Claim C2. From every well-formed collection state in which a record `r` with
id `bookId` is in bucket `A`, and for every status `B` different from `A`, a
move whose store update succeeds ends without an uncaught error in the state
where bucket `A` is the old bucket `A` without the records of id `bookId` (the
others in their order), bucket `B` is the old bucket `B` followed, as last
element, by the copy of `r` with `status` set to `B` and `status_changed_at` set
to the time of the local update, every other bucket is unchanged and the keys
are the same. -/
theorem C2_move_correct (sess : Session) (st : AppState)
    (bookId A B nowRequest nowLocal : String) (bucketA : List BookRecord) (r : BookRecord)
    (hcs : IsCollectionState st.books) (hw : WellFormed st.books)
    (hB : B ∈ BOOK_STATUS.values) (hne : B ≠ A)
    (hbucket : st.books.get A = some bucketA) (hr : r ∈ bucketA) (hid : r.id = bookId) :
    ∃ res bucketB,
      handleStatusChange (some sess) bookId A B nowRequest nowLocal (.ok ()) st = .ok res ∧
      st.books.get B = some bucketB ∧
      res.state.books.get A = some (bucketA.filter (fun b => decide (b.id ≠ bookId))) ∧
      res.state.books.get B
        = some (bucketB ++ [{ r with status := B, status_changed_at := some nowLocal }]) ∧
      (∀ k, k ≠ A → k ≠ B → res.state.books.get k = st.books.get k) ∧
      IsCollectionState res.state.books ∧
      res.state = { st with books := res.state.books } := by
  have hfirst := first_of_id_unique st.books A bookId bucketA r hw hbucket hr hid
  obtain ⟨bucketB, hto⟩ := Books.get_of_mem_keys st.books B (by rw [hcs]; exact hB)
  have hto1 : (st.books.set A (bucketA.filter (fun b => decide (b.id ≠ bookId)))).get B
      = some bucketB := by
    rw [Books.get_set_ne _ _ _ _ hne]; exact hto
  refine ⟨_, bucketB,
    handleStatusChange_found sess st bookId A B nowRequest nowLocal bucketA bucketB r
      hbucket hto hfirst, hto, ?_, ?_, ?_, ?_, rfl⟩
  · show Books.get (Books.set (Books.set st.books A _) B _) A = _
    rw [Books.get_set_ne _ _ _ _ (Ne.symm hne), Books.get_set_same]
  · show Books.get (Books.set (Books.set st.books A _) B _) B = _
    rw [Books.get_set_same]
  · intro k hkA hkB
    show Books.get (Books.set (Books.set st.books A _) B _) k = _
    rw [Books.get_set_ne _ _ _ _ hkB, Books.get_set_ne _ _ _ _ hkA]
  · show IsCollectionState (Books.set (Books.set st.books A _) B _)
    simp only [IsCollectionState]
    rw [Books.keys_set _ _ _ _ hto1, Books.keys_set _ _ _ _ hbucket]; exact hcs

/-- Witness of C2: moving record 1 from TO_READ to READ in the state that holds it. -/
theorem C2_move_correct_witness :
    ∃ res bucketB,
      handleStatusChange (some u1) "1" BOOK_STATUS.TO_READ BOOK_STATUS.READ
        "2024-02-02T00:00:00.000Z" "2024-02-02T00:00:01.000Z" (.ok ())
        { App.initialState with books := booksWithDune } = .ok res ∧
      booksWithDune.get BOOK_STATUS.READ = some bucketB ∧
      res.state.books.get BOOK_STATUS.TO_READ
        = some ([dune].filter (fun b => decide (b.id ≠ "1"))) ∧
      res.state.books.get BOOK_STATUS.READ
        = some (bucketB ++ [{ dune with status := BOOK_STATUS.READ,
                                        status_changed_at := some "2024-02-02T00:00:01.000Z" }]) ∧
      (∀ k, k ≠ BOOK_STATUS.TO_READ → k ≠ BOOK_STATUS.READ →
        res.state.books.get k = booksWithDune.get k) ∧
      IsCollectionState res.state.books ∧
      res.state = { App.initialState with books := res.state.books } :=
  C2_move_correct u1 { App.initialState with books := booksWithDune } "1"
    BOOK_STATUS.TO_READ BOOK_STATUS.READ "2024-02-02T00:00:00.000Z"
    "2024-02-02T00:00:01.000Z" [dune] dune (by decide) (by decide) (by decide) (by decide)
    (by decide) (by decide) (by decide)

/-! ## Failure of a write -/

/-- Claim C3. When the store reports an error for the insert of `handleAddBook`
or for the update of `handleStatusChange`, the handler ends without an uncaught
error, the whole state after it equals the state before it, and exactly one
alert is shown, which ends with the message of the store error. -/
theorem C3_write_failure_atomic (sess : Session) (st : AppState) (error : JSError) :
    (∀ (item : SearchItem) (now : String),
      ∃ r, handleAddBook (some sess) item now (.error error) st = .ok r ∧
        r.state = st ∧ r.alerts = ["Nie udało się dodać książki: " ++ error.message]) ∧
    (∀ (bookId fromStatus toStatus nowRequest nowLocal : String),
      ∃ r, handleStatusChange (some sess) bookId fromStatus toStatus nowRequest nowLocal
          (.error error) st = .ok r ∧
        r.state = st ∧
        r.alerts = ["Nie udało się zaktualizować statusu: " ++ error.message]) := by
  constructor
  · intro item now
    exact ⟨_, rfl, rfl, rfl⟩
  · intro bookId fromStatus toStatus nowRequest nowLocal
    exact ⟨_, rfl, rfl, rfl⟩

/-- Witness of C3: the store update fails during the move of record 1 from TO_READ
to READ; the record is still in TO_READ and the alert carries the cause. -/
theorem C3_write_failure_witness :
    ∃ r, handleStatusChange (some u1) "1" BOOK_STATUS.TO_READ BOOK_STATUS.READ
        "2024-02-02T00:00:00.000Z" "2024-02-02T00:00:01.000Z" (.error networkError)
        { App.initialState with books := booksWithDune } = .ok r ∧
      r.state = { App.initialState with books := booksWithDune } ∧
      r.alerts = ["Nie udało się zaktualizować statusu: " ++ networkError.message] :=
  (C3_write_failure_atomic u1 { App.initialState with books := booksWithDune }
    networkError).2 "1" BOOK_STATUS.TO_READ BOOK_STATUS.READ
    "2024-02-02T00:00:00.000Z" "2024-02-02T00:00:01.000Z"

/-! ## Move of a book that is not in the bucket -/

theorem find_none_of_absent (bookId : String) (bucket : List BookRecord)
    (h : ∀ b ∈ bucket, b.id ≠ bookId) :
    bucket.find? (fun b => decide (b.id = bookId)) = none := by
  rw [List.find?_eq_none]
  intro b hb
  simpa using h b hb

/-- Claim C4, as amended. From a collection state in which no record of bucket
`A` has id `bookId`, whatever the status `B` and whatever the store answers,
`handleStatusChange` still sends the update to the store, ends without an
uncaught error and leaves the whole state unchanged; it shows no alert when the
store update succeeds, and shows the alert with the message of the store error
when the store reports one. -/
theorem C4_absent_move_keeps_state (sess : Session) (st : AppState)
    (bookId A B nowRequest nowLocal : String) (answer : Except JSError Unit)
    (hcs : IsCollectionState st.books) (hA : A ∈ BOOK_STATUS.values)
    (habsent : ∀ bucket, st.books.get A = some bucket → ∀ b ∈ bucket, b.id ≠ bookId) :
    ∃ r, handleStatusChange (some sess) bookId A B nowRequest nowLocal answer st = .ok r ∧
      r.state = st ∧
      r.requests = [Request.update "books"
        [("status", B), ("status_changed_at", nowRequest)] bookId sess.user.id] ∧
      (answer = .ok () → r.alerts = []) ∧
      (∀ error, answer = .error error →
        r.alerts = ["Nie udało się zaktualizować statusu: " ++ error.message]) := by
  obtain ⟨bucket, hget⟩ := Books.get_of_mem_keys st.books A (by rw [hcs]; exact hA)
  have hfind := find_none_of_absent bookId bucket (habsent bucket hget)
  cases answer with
  | error e =>
    refine ⟨_, rfl, rfl, rfl, ?_, ?_⟩
    · intro h; cases h
    · intro error h; cases h; rfl
  | ok u =>
    refine ⟨{ state := st, requests := [Request.update "books"
                [("status", B), ("status_changed_at", nowRequest)] bookId sess.user.id],
              alerts := [], console := [] }, ?_, rfl, rfl, ?_, ?_⟩
    · simp [handleStatusChange, handleStatusChange.updater, hget, hfind]
    · intro _; rfl
    · intro error h; cases h

/-- Witness of C4: record 2 is not in bucket TO_READ of the state that holds
record 1 only; the move of record 2 leaves the state as it was. -/
theorem C4_absent_move_witness :
    ∃ r, handleStatusChange (some u1) "2" BOOK_STATUS.TO_READ BOOK_STATUS.READ
        "2024-02-02T00:00:00.000Z" "2024-02-02T00:00:01.000Z" (.ok ())
        { App.initialState with books := booksWithDune } = .ok r ∧
      r.state = { App.initialState with books := booksWithDune } ∧
      r.requests = [Request.update "books"
        [("status", BOOK_STATUS.READ), ("status_changed_at", "2024-02-02T00:00:00.000Z")]
        "2" u1.user.id] ∧
      ((Except.ok () : Except JSError Unit) = .ok () → r.alerts = []) ∧
      (∀ error, (Except.ok () : Except JSError Unit) = .error error →
        r.alerts = ["Nie udało się zaktualizować statusu: " ++ error.message]) :=
  C4_absent_move_keeps_state u1 { App.initialState with books := booksWithDune } "2"
    BOOK_STATUS.TO_READ BOOK_STATUS.READ "2024-02-02T00:00:00.000Z"
    "2024-02-02T00:00:01.000Z" (.ok ()) (by decide) (by decide)
    (by
      intro bucket hb b hmem
      have hb2 : bucket = [dune] := by
        have : booksWithDune.get BOOK_STATUS.TO_READ = some [dune] := by decide
        have hb3 : Books.get booksWithDune BOOK_STATUS.TO_READ = some bucket := hb
        rw [this] at hb3
        exact (Option.some.inj hb3).symm
      subst hb2
      have : b = dune := by simpa using hmem
      subst this
      decide)

/-- Counterexample to C4 as stated. No record has id 1 in bucket TO_READ of the
initial state, the store answers the update with an error, and the handler shows
a write-path alert. -/
theorem C4_counterexample :
    App.initialState.books.get BOOK_STATUS.TO_READ = some [] ∧
    handleStatusChange (some u1) "1" BOOK_STATUS.TO_READ BOOK_STATUS.READ
        "2024-02-02T00:00:00.000Z" "2024-02-02T00:00:01.000Z" (.error networkError)
        App.initialState
      = .ok { state := App.initialState,
              requests := [Request.update "books"
                [("status", BOOK_STATUS.READ),
                 ("status_changed_at", "2024-02-02T00:00:00.000Z")] "1" "u1"],
              alerts := ["Nie udało się zaktualizować statusu: Failed to fetch"],
              console := ["Błąd podczas aktualizacji statusu:"] } := by
  decide

/-! ## Add -/

theorem handleAddBook_ok (sess : Session) (item : SearchItem) (now : String) (b : BookRecord)
    (st : AppState) (old : List BookRecord) (hget : st.books.get BOOK_STATUS.TO_READ = some old) :
    handleAddBook (some sess) item now (.ok b) st
      = .ok { state := { st with books := st.books.set BOOK_STATUS.TO_READ (old ++ [b]),
                                 searchResults := [], searchQuery := "" },
              requests := [Request.insert "books" [newBook sess item now]],
              alerts := [], console := [] } := by
  simp [handleAddBook, handleAddBook.updater, hget]

/-- Claim C6. From every collection state and for every search item, when the
store insert succeeds and returns the record `b`, `handleAddBook` ends without
an uncaught error in the state whose bucket TO_READ is the old bucket TO_READ
followed by `b` and whose other buckets and keys are unchanged. Hence two calls
with the same item, the store returning `b1` then `b2` with different ids, leave
TO_READ equal to the old bucket followed by `b1` and `b2`: two records longer,
both records in it. -/
theorem C6_add_appends (sess : Session) (item : SearchItem) (st : AppState)
    (hcs : IsCollectionState st.books) :
    ∃ old, st.books.get BOOK_STATUS.TO_READ = some old ∧
    (∀ (now : String) (b : BookRecord),
      ∃ r, handleAddBook (some sess) item now (.ok b) st = .ok r ∧
        r.state.books.get BOOK_STATUS.TO_READ = some (old ++ [b]) ∧
        (∀ k, k ≠ BOOK_STATUS.TO_READ → r.state.books.get k = st.books.get k) ∧
        IsCollectionState r.state.books) ∧
    (∀ (now1 now2 : String) (b1 b2 : BookRecord), b1.id ≠ b2.id →
      ∃ r1 r2 bucket, handleAddBook (some sess) item now1 (.ok b1) st = .ok r1 ∧
        handleAddBook (some sess) item now2 (.ok b2) r1.state = .ok r2 ∧
        r2.state.books.get BOOK_STATUS.TO_READ = some bucket ∧
        bucket = old ++ [b1, b2] ∧ bucket.length = old.length + 2 ∧
        b1 ∈ bucket ∧ b2 ∈ bucket ∧ b1 ≠ b2) := by
  obtain ⟨old, hget⟩ := Books.get_of_mem_keys st.books BOOK_STATUS.TO_READ
    (by rw [hcs]; decide)
  refine ⟨old, hget, ?_, ?_⟩
  · intro now b
    refine ⟨_, handleAddBook_ok sess item now b st old hget, ?_, ?_, ?_⟩
    · exact Books.get_set_same _ _ _
    · intro k hk
      exact Books.get_set_ne _ _ _ _ hk
    · show Books.keys (Books.set st.books _ _) = _
      rw [Books.keys_set _ _ _ _ hget]; exact hcs
  · intro now1 now2 b1 b2 hne
    have h1 := handleAddBook_ok sess item now1 b1 st old hget
    have hget1 : (st.books.set BOOK_STATUS.TO_READ (old ++ [b1])).get BOOK_STATUS.TO_READ
        = some (old ++ [b1]) := Books.get_set_same _ _ _
    refine ⟨_, _, old ++ [b1, b2], h1,
      handleAddBook_ok sess item now2 b2 _ (old ++ [b1]) hget1, ?_, rfl, ?_, ?_, ?_, ?_⟩
    · show Books.get (Books.set (Books.set st.books _ _) _ _) _ = _
      rw [Books.get_set_same]; simp
    · simp
    · simp
    · simp
    · intro h; exact hne (by rw [h])

/-- Witness of C6: the insert of the item titled Foundation by Asimov returns the
record with id 42; the bucket TO_READ then holds that record, and a second add of
the same item that returns id 43 leaves both records in TO_READ. -/
theorem C6_add_witness :
    IsCollectionState App.initialState.books ∧
    ∃ old, App.initialState.books.get BOOK_STATUS.TO_READ = some old ∧
      (∃ r, handleAddBook (some u1) foundation "2024-03-03T00:00:00.000Z" (.ok foundation42)
            App.initialState = .ok r ∧
          r.state.books.get BOOK_STATUS.TO_READ = some (old ++ [foundation42])) ∧
      (∃ r2 bucket, (handleAddBook (some u1) foundation "2024-03-03T00:00:00.000Z"
            (.ok foundation42) App.initialState).bind
            (fun r1 => handleAddBook (some u1) foundation "2024-03-03T00:00:05.000Z"
              (.ok foundation43) r1.state) = .ok r2 ∧
          r2.state.books.get BOOK_STATUS.TO_READ = some bucket ∧
          bucket = old ++ [foundation42, foundation43]) := by
  have hcs : IsCollectionState App.initialState.books := by decide
  obtain ⟨old, hold, hone, htwo⟩ := C6_add_appends u1 foundation App.initialState hcs
  refine ⟨hcs, old, hold, ?_, ?_⟩
  · obtain ⟨r, hr, hb, _, _⟩ := hone "2024-03-03T00:00:00.000Z" foundation42
    exact ⟨r, hr, hb⟩
  · obtain ⟨r1, r2, bucket, h1, h2, hb, heq, _⟩ :=
      htwo "2024-03-03T00:00:00.000Z" "2024-03-03T00:00:05.000Z" foundation42 foundation43
        (by decide)
    refine ⟨r2, bucket, ?_, hb, heq⟩
    rw [h1]; exact h2

/-! ## Two moves of the same book in flight -/

theorem idCount_two_buckets (s : Books) (k1 k2 x : String) (l1 l2 : List BookRecord)
    (hne : k1 ≠ k2) (h1 : s.get k1 = some l1) (h2 : s.get k2 = some l2) :
    idCount x l1 + idCount x l2 ≤ idCount x (allRecords s) := by
  have e1 := idCount_set s k1 x [] l1 h1
  have h2b : (s.set k1 []).get k2 = some l2 := by
    rw [Books.get_set_ne _ _ _ _ (Ne.symm hne)]; exact h2
  have e2 := idCount_set (s.set k1 []) k2 x [] l2 h2b
  have e3 : idCount x ([] : List BookRecord) = 0 := by simp [idCount]
  omega

theorem absent_of_idCount_zero (x : String) (l : List BookRecord) (h : idCount x l = 0) :
    ∀ b ∈ l, b.id ≠ x := by
  intro b hb hx
  have : x ∈ l.map (fun b => b.id) := List.mem_map.mpr ⟨b, hb, hx⟩
  have := List.count_pos_iff.mpr this
  simp only [idCount] at h
  omega

/-- Claim C7, as amended. From a well-formed collection state with a record of id
`bookId` in bucket `A`, and for statuses `B` and `C` with `A`, `B`, `C` pairwise
different (only `A ≠ B` is used), when the moves to `B` and to `C` are both
issued and both store updates succeed, the response of the move to `B` landing
first and that of the move to `C` second, both handlers end without an uncaught
error, the second local update changes nothing, and the record is in bucket `B`,
the bucket of the move whose response landed first, and in no other bucket. The
local update of a move runs when its response lands, on the state of that
moment, so the second handler is applied to the state left by the first. -/
theorem C7_first_response_wins (sess : Session) (st : AppState)
    (bookId A B C t1 t2 t3 t4 : String) (bucketA : List BookRecord) (rec : BookRecord)
    (hcs : IsCollectionState st.books) (hw : WellFormed st.books)
    (hB : B ∈ BOOK_STATUS.values) (hAB : A ≠ B)
    (hbucket : st.books.get A = some bucketA) (hrec : rec ∈ bucketA) (hid : rec.id = bookId) :
    ∃ r1 r2 bucketB,
      handleStatusChange (some sess) bookId A B t1 t2 (.ok ()) st = .ok r1 ∧
      handleStatusChange (some sess) bookId A C t3 t4 (.ok ()) r1.state = .ok r2 ∧
      r2.state = r1.state ∧
      r2.state.books.get B = some bucketB ∧ (∃ b ∈ bucketB, b.id = bookId) ∧
      ∀ k bucket, k ≠ B → r2.state.books.get k = some bucket → ∀ b ∈ bucket, b.id ≠ bookId := by
  -- the first record of bucket A with that id
  have hsome : (bucketA.find? (fun b => decide (b.id = bookId))).isSome := by
    rw [List.find?_isSome]
    exact ⟨rec, hrec, by simpa using hid⟩
  obtain ⟨book, hfind⟩ := Option.isSome_iff_exists.mp hsome
  obtain ⟨hbid, _, _⟩ := idCount_pos_of_find bookId bucketA book hfind
  obtain ⟨bucketB, hgetB⟩ := Books.get_of_mem_keys st.books B (by rw [hcs]; exact hB)
  have h1 := handleStatusChange_found sess st bookId A B t1 t2 bucketA bucketB book
    hbucket hgetB hfind
  -- the state after the first move is well-formed
  have hw1 := wellFormed_move st.books bookId A B t2 bucketA bucketB book hw hAB hbucket
    hgetB hfind
  have hA1 : ((st.books.set A (bucketA.filter (fun b => decide (b.id ≠ bookId)))).set B
      (bucketB ++ [{ book with status := B, status_changed_at := some t2 }])).get A
      = some (bucketA.filter (fun b => decide (b.id ≠ bookId))) := by
    rw [Books.get_set_ne _ _ _ _ hAB, Books.get_set_same]
  have hB1 : ((st.books.set A (bucketA.filter (fun b => decide (b.id ≠ bookId)))).set B
      (bucketB ++ [{ book with status := B, status_changed_at := some t2 }])).get B
      = some (bucketB ++ [{ book with status := B, status_changed_at := some t2 }]) :=
    Books.get_set_same _ _ _
  -- the second move finds nothing in bucket A
  have hnone : (bucketA.filter (fun b => decide (b.id ≠ bookId))).find?
      (fun b => decide (b.id = bookId)) = none := by
    apply find_none_of_absent
    intro b hb
    simpa using (List.mem_filter.mp hb).2
  have h2 : handleStatusChange (some sess) bookId A C t3 t4 (.ok ())
      { st with books :=
          ((st.books.set A (bucketA.filter (fun b => decide (b.id ≠ bookId)))).set B
            (bucketB ++ [{ book with status := B, status_changed_at := some t2 }])) }
      = .ok { state := { st with books :=
                ((st.books.set A (bucketA.filter (fun b => decide (b.id ≠ bookId)))).set B
                  (bucketB ++ [{ book with status := B, status_changed_at := some t2 }])) },
              requests := [Request.update "books"
                [("status", C), ("status_changed_at", t3)] bookId sess.user.id],
              alerts := [], console := [] } :=
    handleStatusChange_not_found sess _ bookId A C t3 t4 _ hA1 hnone
  refine ⟨_, _, _, h1, h2, rfl, hB1,
    ⟨{ book with status := B, status_changed_at := some t2 }, by simp, hbid⟩, ?_⟩
  intro k bucket hk hget b hb
  have hcount := idCount_two_buckets _ B k bookId _ bucket (Ne.symm hk) hB1 hget
  have hle := (nodup_ids_iff _).mp hw1.2 bookId
  have hone : 1 ≤ idCount bookId
      (bucketB ++ [{ book with status := B, status_changed_at := some t2 }]) := by
    rw [idCount_append]
    have : idCount bookId
        [({ book with status := B, status_changed_at := some t2 } : BookRecord)] = 1 := by
      simp [idCount, hbid]
    omega
  exact absent_of_idCount_zero bookId bucket (by omega) b hb

/-- Witness of C7: record 1 is in TO_READ; the move to READING lands first, the
move to READ second. -/
theorem C7_first_response_wins_witness :
    ∃ r1 r2 bucketB,
      handleStatusChange (some u1) "1" BOOK_STATUS.TO_READ BOOK_STATUS.READING
        "2024-02-02T00:00:00.000Z" "2024-02-02T00:00:02.000Z" (.ok ())
        { App.initialState with books := booksWithDune } = .ok r1 ∧
      handleStatusChange (some u1) "1" BOOK_STATUS.TO_READ BOOK_STATUS.READ
        "2024-02-02T00:00:01.000Z" "2024-02-02T00:00:03.000Z" (.ok ()) r1.state = .ok r2 ∧
      r2.state = r1.state ∧
      r2.state.books.get BOOK_STATUS.READING = some bucketB ∧ (∃ b ∈ bucketB, b.id = "1") ∧
      ∀ k bucket, k ≠ BOOK_STATUS.READING → r2.state.books.get k = some bucket →
        ∀ b ∈ bucket, b.id ≠ "1" :=
  C7_first_response_wins u1 { App.initialState with books := booksWithDune } "1"
    BOOK_STATUS.TO_READ BOOK_STATUS.READING BOOK_STATUS.READ
    "2024-02-02T00:00:00.000Z" "2024-02-02T00:00:02.000Z"
    "2024-02-02T00:00:01.000Z" "2024-02-02T00:00:03.000Z" [dune] dune
    (by decide) (by decide) (by decide) (by decide) (by decide) (by decide) (by decide)

/-- Counterexample to C7 as stated. Record 1 is in TO_READ of a well-formed state;
the moves to READING and to READ both succeed at the store, the response of the
move to READING landing first. After both local updates the record is in
READING and the bucket READ is empty. -/
theorem C7_counterexample :
    IsCollectionState booksWithDune ∧ WellFormed booksWithDune ∧
    booksWithDune.get BOOK_STATUS.TO_READ = some [dune] ∧ dune.id = "1" ∧
    ((handleStatusChange (some u1) "1" BOOK_STATUS.TO_READ BOOK_STATUS.READING
        "2024-02-02T00:00:00.000Z" "2024-02-02T00:00:02.000Z" (.ok ())
        { App.initialState with books := booksWithDune }).bind
      (fun r1 => handleStatusChange (some u1) "1" BOOK_STATUS.TO_READ BOOK_STATUS.READ
        "2024-02-02T00:00:01.000Z" "2024-02-02T00:00:03.000Z" (.ok ()) r1.state)).map
      (fun r2 => r2.state.books)
    = .ok [(BOOK_STATUS.TO_READ, []),
           (BOOK_STATUS.READING,
             [{ dune with status := BOOK_STATUS.READING,
                          status_changed_at := some "2024-02-02T00:00:02.000Z" }]),
           (BOOK_STATUS.READ, []), (BOOK_STATUS.ABANDONED, [])] := by
  decide

/-! ## The row sent by add -/

/-- Claim C8, as amended. For every search item and every session, whatever the
store answers, `handleAddBook` ends without an uncaught error having sent one
insert into `books` of one row; that row has exactly the keys user_id, title,
authors, cover, isbn, description, status, added_at, created_at, with status
TO_READ, user_id the id of the session user, the five descriptive fields copied
from the search item, and added_at and created_at both equal to the creation
timestamp. The row has no id (the catalog id is not forwarded) and no
status_changed_at. -/
theorem C8_row_built_by_add (sess : Session) (item : SearchItem) (now : String)
    (answer : Except JSError BookRecord) (st : AppState) (hcs : IsCollectionState st.books) :
    ∃ r row, handleAddBook (some sess) item now answer st = .ok r ∧
      r.requests = [Request.insert "books" [row]] ∧
      row.map Prod.fst = ["user_id", "title", "authors", "cover", "isbn", "description",
                          "status", "added_at", "created_at"] ∧
      JSObject.get row "status" = some BOOK_STATUS.TO_READ ∧
      JSObject.get row "user_id" = some sess.user.id ∧
      JSObject.get row "title" = item.title ∧
      JSObject.get row "authors" = some item.authors ∧
      JSObject.get row "cover" = some item.cover ∧
      JSObject.get row "isbn" = some item.isbn ∧
      JSObject.get row "description" = some item.description ∧
      JSObject.get row "added_at" = some now ∧
      JSObject.get row "created_at" = some now ∧
      JSObject.get row "id" = none ∧
      JSObject.get row "status_changed_at" = none := by
  have hrow : ∃ r, handleAddBook (some sess) item now answer st = .ok r ∧
      r.requests = [Request.insert "books" [newBook sess item now]] := by
    cases answer with
    | error e => exact ⟨_, rfl, rfl⟩
    | ok b =>
      obtain ⟨old, hget⟩ := Books.get_of_mem_keys st.books BOOK_STATUS.TO_READ
        (by rw [hcs]; decide)
      exact ⟨_, handleAddBook_ok sess item now b st old hget, rfl⟩
  obtain ⟨r, hr, hreq⟩ := hrow
  exact ⟨r, newBook sess item now, hr, hreq, rfl, rfl, rfl, rfl, rfl, rfl, rfl, rfl, rfl,
    rfl, rfl, rfl⟩

/-- Witness of C8: the add of the item titled Foundation by the user u1. -/
theorem C8_row_built_by_add_witness :
    ∃ r row, handleAddBook (some u1) foundation "2024-03-03T00:00:00.000Z" (.ok foundation42)
        App.initialState = .ok r ∧
      r.requests = [Request.insert "books" [row]] ∧
      row.map Prod.fst = ["user_id", "title", "authors", "cover", "isbn", "description",
                          "status", "added_at", "created_at"] ∧
      JSObject.get row "status" = some BOOK_STATUS.TO_READ ∧
      JSObject.get row "user_id" = some u1.user.id ∧
      JSObject.get row "title" = foundation.title ∧
      JSObject.get row "authors" = some foundation.authors ∧
      JSObject.get row "cover" = some foundation.cover ∧
      JSObject.get row "isbn" = some foundation.isbn ∧
      JSObject.get row "description" = some foundation.description ∧
      JSObject.get row "added_at" = some "2024-03-03T00:00:00.000Z" ∧
      JSObject.get row "created_at" = some "2024-03-03T00:00:00.000Z" ∧
      JSObject.get row "id" = none ∧
      JSObject.get row "status_changed_at" = none :=
  C8_row_built_by_add u1 foundation "2024-03-03T00:00:00.000Z" (.ok foundation42)
    App.initialState (by decide)

/-- Counterexample to C8 as stated. The row sent for the item titled Foundation at
the given creation timestamp has no status_changed_at, so that field is not
equal to the creation timestamp; the timestamp is stored under created_at. -/
theorem C8_counterexample :
    (handleAddBook (some u1) foundation "2024-03-03T00:00:00.000Z" (.ok foundation42)
        App.initialState).map (fun r => r.requests)
      = .ok [Request.insert "books" [newBook u1 foundation "2024-03-03T00:00:00.000Z"]] ∧
    JSObject.get (newBook u1 foundation "2024-03-03T00:00:00.000Z") "status_changed_at" = none ∧
    JSObject.get (newBook u1 foundation "2024-03-03T00:00:00.000Z") "status_changed_at"
      ≠ some "2024-03-03T00:00:00.000Z" ∧
    JSObject.get (newBook u1 foundation "2024-03-03T00:00:00.000Z") "created_at"
      = some "2024-03-03T00:00:00.000Z" := by
  decide

/-! ## Search -/

theorem jsOr_ne_empty (v : Option String) (d : String) (hd : d ≠ "") : jsOr v d ≠ "" := by
  cases v with
  | none => simpa [jsOr] using hd
  | some x =>
    by_cases hx : x = ""
    · simpa [jsOr, hx] using hd
    · simp [jsOr, hx]

theorem jsOr_fallback (v : Option String) (d : String) (h : v = none ∨ v = some "") :
    jsOr v d = d := by
  rcases h with h | h <;> subst h <;> simp [jsOr]

theorem jsOr_value (x d : String) (hx : x ≠ "") : jsOr (some x) d = x := by
  simp [jsOr, hx]

theorem searchBooks_failed (q : String) (answer : CatalogAnswer) (st : AppState) (e : JSError)
    (hq : jsTrim q ≠ "") (h : searchBooks.formattedResults answer = .error e) :
    searchBooks q answer st
      = .ok { state := { st with searchResults := [], isLoading := false },
              requests := [Request.catalog q 5], alerts := [],
              console := ["Błąd podczas wyszukiwania:"] } := by
  simp only [searchBooks, hq, if_false, h]

theorem searchBooks_formatted (q : String) (answer : CatalogAnswer) (st : AppState)
    (l : List SearchItem) (hq : jsTrim q ≠ "")
    (h : searchBooks.formattedResults answer = .ok l) :
    searchBooks q answer st
      = .ok { state := { st with searchResults := l, isLoading := false },
              requests := [Request.catalog q 5], alerts := [], console := [] } := by
  simp only [searchBooks, hq, if_false, h]

theorem formatVolume_none (v : Volume) (h : v.volumeInfo = none) :
    formatVolume v = .error (JSError.typeError "undefined (reading title)") := by
  simp only [formatVolume, h]

theorem formatVolume_some (v : Volume) (info : VolumeInfo) (h : v.volumeInfo = some info) :
    formatVolume v
      = .ok { id := v.id
              title := info.title
              authors := jsOr (info.authors.map (jsJoin ", ")) "Nieznany autor"
              cover := jsOr (info.imageLinks.bind (fun l => l.thumbnail))
                "/placeholder-book.png"
              isbn := jsOr ((info.industryIdentifiers.bind (fun l => l.head?)).bind
                (fun i => i.identifier)) "Brak ISBN"
              description := jsOr info.description "Brak opisu" } := by
  simp only [formatVolume, h]

theorem mapFormatVolume_error (items : List Volume)
    (h : ∃ v ∈ items, v.volumeInfo = none) : ∃ e, mapFormatVolume items = .error e := by
  induction items with
  | nil => obtain ⟨v, hv, _⟩ := h; simp at hv
  | cons book rest ih =>
    cases hb : book.volumeInfo with
    | none =>
      exact ⟨JSError.typeError "undefined (reading title)",
        by simp only [mapFormatVolume, formatVolume_none book hb]⟩
    | some info =>
      have hrest : ∃ v ∈ rest, v.volumeInfo = none := by
        obtain ⟨v, hv, hnone⟩ := h
        rcases List.mem_cons.mp hv with hv | hv
        · subst hv; rw [hb] at hnone; cases hnone
        · exact ⟨v, hv, hnone⟩
      obtain ⟨e, he⟩ := ih hrest
      exact ⟨e, by simp only [mapFormatVolume, formatVolume_some book info hb, he]⟩

theorem mapFormatVolume_ok (items : List Volume)
    (h : ∀ v ∈ items, v.volumeInfo ≠ none) :
    ∃ l, mapFormatVolume items = .ok l ∧ items.map formatVolume = l.map Except.ok := by
  induction items with
  | nil => exact ⟨[], rfl, rfl⟩
  | cons book rest ih =>
    obtain ⟨l, hl, hmap⟩ := ih (fun v hv => h v (List.mem_cons_of_mem _ hv))
    cases hb : book.volumeInfo with
    | none => exact absurd hb (h book (by simp))
    | some info =>
      have hf : ∃ it, formatVolume book = .ok it := ⟨_, formatVolume_some book info hb⟩
      obtain ⟨it, hit⟩ := hf
      refine ⟨it :: l, ?_, ?_⟩
      · simp only [mapFormatVolume, hit, hl]
      · simp only [List.map_cons, hit, hmap]

/-- Claim C9, as amended. For every query that is not blank, `searchBooks` ends
without an uncaught error, with the loading flag false, no alert, and `books`
untouched. The search results are the empty list when the request or the
decoding of its response fails, when the response is `null`, when it has no
items, and when one of its items has no `volumeInfo`; otherwise they are the
items in order, each mapped by `formatVolume`. For a volume with a `volumeInfo`
the mapped item copies `id` and `title` as they are (`undefined` when absent);
`authors` is the author names joined by a comma and a space, or the placeholder
when the list is missing or the joined string is empty (empty list, or one empty
name); `cover`, `isbn` (first identifier) and `description` are the value of the
volume, or their placeholder when the value is missing or the empty string; none
of these four fields is ever the empty string. -/
theorem C9_search_degrades_to_empty (q : String) (answer : CatalogAnswer) (st : AppState)
    (hq : jsTrim q ≠ "") :
    (∃ r, searchBooks q answer st = .ok r ∧
      r.state.isLoading = false ∧ r.alerts = [] ∧ r.state.books = st.books ∧
      (∀ e, answer = .fetchRejected e → r.state.searchResults = []) ∧
      (∀ e, answer = .jsonRejected e → r.state.searchResults = []) ∧
      (answer = .jsonNull → r.state.searchResults = []) ∧
      (answer = .json none → r.state.searchResults = []) ∧
      (answer = .json (some []) → r.state.searchResults = []) ∧
      (∀ items, answer = .json (some items) → (∃ v ∈ items, v.volumeInfo = none) →
        r.state.searchResults = []) ∧
      (∀ items, answer = .json (some items) → (∀ v ∈ items, v.volumeInfo ≠ none) →
        items.map formatVolume = r.state.searchResults.map Except.ok)) ∧
    (∀ v : Volume, v.volumeInfo = none → ∃ e, formatVolume v = .error e) ∧
    (∀ (v : Volume) (info : VolumeInfo), v.volumeInfo = some info →
      ∃ it, formatVolume v = .ok it ∧
      it.id = v.id ∧ it.title = info.title ∧
      (info.authors = none → it.authors = "Nieznany autor") ∧
      (∀ l, info.authors = some l → jsJoin ", " l = "" → it.authors = "Nieznany autor") ∧
      (info.authors = some [] → it.authors = "Nieznany autor") ∧
      (∀ l, info.authors = some l → jsJoin ", " l ≠ "" → it.authors = jsJoin ", " l) ∧
      (∀ x, info.imageLinks.bind (fun l => l.thumbnail) = some x → x ≠ "" → it.cover = x) ∧
      (info.imageLinks.bind (fun l => l.thumbnail) = none ∨
        info.imageLinks.bind (fun l => l.thumbnail) = some "" →
        it.cover = "/placeholder-book.png") ∧
      (∀ x, (info.industryIdentifiers.bind (fun l => l.head?)).bind
          (fun i => i.identifier) = some x → x ≠ "" → it.isbn = x) ∧
      ((info.industryIdentifiers.bind (fun l => l.head?)).bind
          (fun i => i.identifier) = none ∨
        (info.industryIdentifiers.bind (fun l => l.head?)).bind
          (fun i => i.identifier) = some "" → it.isbn = "Brak ISBN") ∧
      (∀ x, info.description = some x → x ≠ "" → it.description = x) ∧
      (info.description = none ∨ info.description = some "" →
        it.description = "Brak opisu") ∧
      it.authors ≠ "" ∧ it.cover ≠ "" ∧ it.isbn ≠ "" ∧ it.description ≠ "") := by
  refine ⟨?_, ?_, ?_⟩
  · cases answer with
    | fetchRejected e =>
      refine ⟨_, searchBooks_failed q _ st e hq rfl, rfl, rfl, rfl,
        ?_, ?_, ?_, ?_, ?_, ?_, ?_⟩ <;> intros <;> first | rfl | contradiction
    | jsonRejected e =>
      refine ⟨_, searchBooks_failed q _ st e hq rfl, rfl, rfl, rfl,
        ?_, ?_, ?_, ?_, ?_, ?_, ?_⟩ <;> intros <;> first | rfl | contradiction
    | jsonNull =>
      refine ⟨_, searchBooks_failed q _ st _ hq rfl, rfl, rfl, rfl,
        ?_, ?_, ?_, ?_, ?_, ?_, ?_⟩ <;> intros <;> first | rfl | contradiction
    | json items =>
      cases items with
      | none =>
        refine ⟨_, searchBooks_formatted q _ st [] hq rfl, rfl, rfl, rfl,
          ?_, ?_, ?_, ?_, ?_, ?_, ?_⟩
        · intro e h; cases h
        · intro e h; cases h
        · intro h; cases h
        · intro _; rfl
        · intro h; cases h
        · intro items h; cases h
        · intro items h; cases h
      | some l =>
        by_cases hbad : ∃ v ∈ l, v.volumeInfo = none
        · obtain ⟨e, he⟩ := mapFormatVolume_error l hbad
          refine ⟨_, searchBooks_failed q _ st e hq he, rfl, rfl, rfl,
            ?_, ?_, ?_, ?_, ?_, ?_, ?_⟩
          · intro e h; cases h
          · intro e h; cases h
          · intro h; cases h
          · intro h; cases h
          · intro _; rfl
          · intro items _ _; rfl
          · intro items h hall
            cases h
            obtain ⟨v, hv, hnone⟩ := hbad
            exact absurd hnone (hall v hv)
        · have hall : ∀ v ∈ l, v.volumeInfo ≠ none := fun v hv hnone => hbad ⟨v, hv, hnone⟩
          obtain ⟨fl, hfl, hmap⟩ := mapFormatVolume_ok l hall
          refine ⟨_, searchBooks_formatted q _ st fl hq hfl, rfl, rfl, rfl,
            ?_, ?_, ?_, ?_, ?_, ?_, ?_⟩
          · intro e h; cases h
          · intro e h; cases h
          · intro h; cases h
          · intro h; cases h
          · intro h
            cases h
            have : mapFormatVolume [] = .ok fl := hfl
            simp only [mapFormatVolume] at this
            cases this
            rfl
          · intro items h hex
            cases h
            exact absurd hex hbad
          · intro items h _
            cases h
            exact hmap
  · intro v h
    exact ⟨_, formatVolume_none v h⟩
  · intro v info h
    refine ⟨_, formatVolume_some v info h, rfl, rfl,
      ?_, ?_, ?_, ?_, ?_, ?_, ?_, ?_, ?_, ?_, ?_, ?_, ?_, ?_⟩
    · intro h; simp [h, jsOr]
    · intro l h hl; simp [h, jsOr, hl]
    · intro h; simp [h, jsOr, jsJoin]
    · intro l h hl; simp [h, jsOr, hl]
    · intro x h hx
      show jsOr (info.imageLinks.bind (fun l => l.thumbnail)) _ = x
      rw [h]; exact jsOr_value x _ hx
    · intro h; exact jsOr_fallback _ _ h
    · intro x h hx
      show jsOr ((info.industryIdentifiers.bind (fun l => l.head?)).bind
          (fun i => i.identifier)) _ = x
      rw [h]; exact jsOr_value x _ hx
    · intro h; exact jsOr_fallback _ _ h
    · intro x h hx
      show jsOr info.description _ = x
      rw [h]; exact jsOr_value x _ hx
    · intro h; exact jsOr_fallback _ _ h
    · exact jsOr_ne_empty _ _ (by decide)
    · exact jsOr_ne_empty _ _ (by decide)
    · exact jsOr_ne_empty _ _ (by decide)
    · exact jsOr_ne_empty _ _ (by decide)

/-- Witness of C9: the query Beowulf, once with the request failing and once with
a response of one complete volume. -/
theorem C9_search_witness :
    jsTrim "Beowulf" ≠ "" ∧
    (∃ r, searchBooks "Beowulf" (.fetchRejected networkError)
        { App.initialState with searchResults := [foundation], isLoading := true } = .ok r ∧
      r.state.isLoading = false ∧ r.alerts = [] ∧ r.state.searchResults = []) ∧
    (searchBooks "Beowulf" (.json (some [hobbitVolume])) App.initialState).map
        (fun r => r.state.searchResults)
      = .ok [{ id := some "v2", title := some "The Hobbit", authors := "J. R. R. Tolkien",
               cover := "http://books.example/h.png", isbn := "9780261102217",
               description := "There and back again" }] := by
  have hq : jsTrim "Beowulf" ≠ "" := by decide
  obtain ⟨⟨r, hr, hl, ha, _, hf, _⟩, _⟩ := C9_search_degrades_to_empty "Beowulf"
    (.fetchRejected networkError)
    { App.initialState with searchResults := [foundation], isLoading := true } hq
  exact ⟨hq, ⟨r, hr, hl, ha, hf networkError rfl⟩, by decide⟩

/-- Counterexample to C9 as stated. The author list of `anonymousVolume` is neither
missing nor empty, and its names joined give the empty string; the search result
has the placeholder as `authors`, not the joined names. And the response whose
items are `hobbitVolume` and `bareVolume` has items and decodes, yet the results
are the empty list and not the mapped items, because `bareVolume` has no
`volumeInfo`. -/
theorem C9_counterexample :
    jsTrim "Beowulf" ≠ "" ∧
    (anonymousVolume.volumeInfo.bind (fun i => i.authors) = some [""] ∧
      jsJoin ", " [""] = "" ∧
      (searchBooks "Beowulf" (.json (some [anonymousVolume])) App.initialState).map
          (fun r => r.state.searchResults)
        = .ok [{ id := some "v1", title := some "Beowulf", authors := "Nieznany autor",
                 cover := "/placeholder-book.png", isbn := "Brak ISBN",
                 description := "An epic poem" }] ∧
      "Nieznany autor" ≠ jsJoin ", " [""]) ∧
    ([hobbitVolume, bareVolume] ≠ [] ∧
      (searchBooks "Beowulf" (.json (some [hobbitVolume, bareVolume])) App.initialState).map
          (fun r => r.state.searchResults)
        = .ok []) := by
  decide

/-! ## Load after a session is delivered -/

/-- Claim C10, evaluated on the code. Whatever non-null session the session
provider delivers to the callbacks of the mount effect, whatever the store would
answer and whatever the state, the load they trigger sends no request to the
store and leaves `books` as it was: the `fetchUserBooks` of the first render reads
its own `session` variable, which is `null`, and the exception ends in its
`catch`. In particular, from the initial state and with the row `dune` in the
store for user u1, `books` stays the four empty buckets. -/
theorem C10_load_reads_stale_session :
    (∀ (s : Session) (answer : Except JSError (List BookRecord)) (st : AppState),
      App.mountEffect (some s) answer st
        = .ok { state := { st with session := some s }, requests := [], alerts := [],
                console := ["Błąd podczas pobierania książek:"] }) ∧
    App.mountEffect (some u1) (.ok [dune]) App.initialState
      = .ok { state := { App.initialState with session := some u1, books := emptyBooks },
              requests := [], alerts := [],
              console := ["Błąd podczas pobierania książek:"] } ∧
    fetchUserBooks (some u1) (.ok [dune]) { App.initialState with session := some u1 }
      = .ok { state := { App.initialState with session := some u1,
                                               books := partitionByStatus [dune] },
              requests := [Request.select "books" "u1"], alerts := [], console := [] } := by
  refine ⟨?_, by decide, by decide⟩
  intro s answer st
  rfl

end Biblioteka
